import Mathlib

/-!
Shallow embedding of the camera QR-scan page (`src/app/qr-scan/page.tsx`).

The page is a single React component, `QrScanPage`.  Its transient UI state
(the `useState` hooks and the two `useRef` cells) is modelled by the
structure `AppState`; its event handlers and effects are modelled as pure
functions from `AppState` (plus the external inputs that the browser or the
zxing library deliver) to `AppState`.  External library behaviour — the
zxing `BrowserMultiFormatReader`, `MediaStream` tracks, canvas encoding —
is modelled at the granularity the page observes it:

* a media-stream track is identified by a natural number; calling its
  `stop()` method records that number in the `stoppedIds` log (the track is
  then "in a stopped state");
* the reader holds a multiset (`List`) of currently bound decode loops, one
  entry per `decodeFromVideoDevice` call that has not been released by
  `reset()`; `reset()` releases them all (the zxing contract: "reset/release
  decoder"), and may additionally raise an exception which the page's
  `try { ... } catch {}` swallows;
* `canvas.toDataURL('image/png')` is modelled by an explicit PNG-data-URI
  encoding function of the video's current frame and dimensions;
* `capturedAt` is a ghost field recording the time at which the last
  capture happened; no code in the page reads it, it only serves to state
  properties that mention "the capture timestamp".
-/

set_option autoImplicit false

namespace QrScan

/-- A video-input device as returned by `enumerateDevices` and filtered to
`kind === 'videoinput'`. -/
structure CameraDevice where
  deviceId : String
  label : String
deriving DecidableEq

/-- The `<video>` element: its `srcObject` (a stream, i.e. a list of track
ids, or `null`), its intrinsic dimensions, and an abstract rendering of the
current frame contents. -/
structure Video where
  srcObject : Option (List Nat)
  videoWidth : Nat
  videoHeight : Nat
  frame : String
deriving DecidableEq

/-- The zxing `BrowserMultiFormatReader`: the decode loops currently bound
to it, one entry (the requested device id, `deviceId ?? null`) per
`decodeFromVideoDevice` call not yet released by `reset()`. -/
structure Reader where
  bindings : List (Option String)
deriving DecidableEq

/-- The state of `QrScanPage`: the `useState` hooks (`cameras`,
`selectedDeviceId`, `scanning`, `resultText`, `error`, `capturedImage`),
the two refs (`videoRef`, `readerRef`), the log of track ids whose `stop()`
method has been called, and the ghost capture timestamp. -/
structure AppState where
  cameras : List CameraDevice
  selectedDeviceId : Option String
  scanning : Bool
  resultText : String
  error : String
  capturedImage : String
  video : Option Video
  reader : Option Reader
  stoppedIds : List Nat
  capturedAt : Nat
deriving DecidableEq

/-- The decode loops currently bound through the reader (empty when the
reader ref is `null`). -/
def readerBindings (s : AppState) : List (Option String) :=
  match s.reader with
  | some r => r.bindings
  | none => []

/-- The stream currently attached to the video surface (`null` when the
video ref itself is `null`). -/
def srcObjectOf (s : AppState) : Option (List Nat) :=
  match s.video with
  | some v => v.srcObject
  | none => none

/-- Outcome of the `readerRef.current.decodeFromVideoDevice(...)` call in
`startScanning`: either the loop is bound (attaching a fresh camera stream,
given by its track ids, to the video surface), or the call throws
synchronously with the given description. -/
inductive BindOutcome where
  | bound (tracks : List Nat)
  | threw (msg : String)
deriving DecidableEq

/-- The two arguments of the per-frame decode callback: zxing passes either
a decoded `Result`, or an error that is a `NotFoundException` ("no code in
this frame") or some other error with a description. -/
inductive CallbackErr where
  | noErr
  | notFound
  | other (msg : String)
deriving DecidableEq

/-- Outcome of the canvas work inside `captureImage`: `getContext('2d')`
succeeded and drawing/encoding went through, or `getContext` returned
`null`, or something in the `try` block threw with the given description. -/
inductive CanvasOutcome where
  | ok
  | noContext
  | raised (msg : String)
deriving DecidableEq

/-- Model of `canvas.toDataURL('image/png')` for a canvas of the video's
intrinsic size onto which the current frame was drawn. -/
def toDataURL (v : Video) : String :=
  "data:image/png;base64," ++ toString v.videoWidth ++ "x"
    ++ toString v.videoHeight ++ ":" ++ v.frame

/-- Model of `reader.reset()`: the decoder's resources (all bound decode
loops) are released, and the call may additionally report an exception,
which the caller in `stopScanning` swallows with `try { ... } catch {}`. -/
def resetReader (r : Reader) (resetThrows : Bool) : Reader × Option String :=
  ({ bindings := [] }, if resetThrows then some "reset failed" else none)

/-- Lines 94-105: `stopScanning`.  Sets `scanning` to `false`, resets the
reader inside a `try`/`catch {}` (`resetThrows` says whether the external
reset raised; the exception is swallowed either way), then, if the video
surface has a stream attached, stops every track of that stream and clears
`video.srcObject`. -/
def stopScanning (resetThrows : Bool) (s : AppState) : AppState :=
  let s1 := { s with scanning := false }
  let s2 :=
    match s1.reader with
    | some r => { s1 with reader := some (resetReader r resetThrows).1 }
    | none => s1
  match s2.video with
  | some v =>
    match v.srcObject with
    | some ts =>
      { s2 with stoppedIds := s2.stoppedIds ++ ts
                video := some { v with srcObject := none } }
    | none => s2
  | none => s2

/-- Lines 68-92: `startScanning(deviceId?)`.  Returns immediately when the
video ref or the reader ref is `null`; otherwise clears `error` and
`resultText`, sets `scanning` to `true` and calls `decodeFromVideoDevice`.
On a synchronous throw the `catch` sets `error` to the description and
reverts `scanning` to `false`; otherwise a decode loop is bound and the
camera stream is attached to the video surface. -/
def startScanning (s : AppState) (deviceId : Option String) (o : BindOutcome) : AppState :=
  match s.video, s.reader with
  | some v, some r =>
    let s1 := { s with error := "", resultText := "", scanning := true }
    match o with
    | BindOutcome.bound ts =>
      { s1 with reader := some { bindings := r.bindings ++ [deviceId] }
                video := some { v with srcObject := some ts } }
    | BindOutcome.threw msg => { s1 with error := msg, scanning := false }
  | _, _ => s

/-- JavaScript truthiness of a possibly-undefined string: `undefined` and
the empty string are falsy. -/
def truthy (v : Option String) : Bool :=
  match v with
  | some x => x != ""
  | none => false

/-- Lines 59-66: one run of the `selectedDeviceId` effect after the
selection changes to `d`.  The effect body early-returns when the id is
falsy (`if (!selectedDeviceId) return`), so a run only registers its
`stopScanning` cleanup when the id it saw was truthy.  React executes the
cleanup registered by the previous run — if that run registered one —
before the new body: therefore the old loop is stopped only when the
previous value `s.selectedDeviceId` was truthy; and the new body calls
`startScanning d` only when the new value `d` is truthy. -/
def changeDevice (s : AppState) (d : Option String) (o : BindOutcome) (rt : Bool) : AppState :=
  let s1 := if truthy s.selectedDeviceId then stopScanning rt s else s
  let s2 := { s1 with selectedDeviceId := d }
  if truthy d then startScanning s2 d o else s2

/-- Lines 78-86: the per-frame callback passed to `decodeFromVideoDevice`.
A decoded result sets `resultText` to its text; an error that is not a
`NotFoundException` sets `error` to its description; a `NotFoundException`
is ignored. -/
def decodeCallback (s : AppState) (result : Option String) (err : CallbackErr) : AppState :=
  let s1 :=
    match result with
    | some txt => { s with resultText := txt }
    | none => s
  match err with
  | CallbackErr.other msg => { s1 with error := msg }
  | _ => s1

/-- Lines 112-131: `captureImage`.  Returns immediately when the video ref
is `null` or `scanning` is `false`; otherwise draws the current frame on a
fresh canvas at the video's intrinsic size and stores the PNG data URI in
`capturedImage` (recording the ghost capture time `now`), surfacing a
context-acquisition failure or a thrown exception in `error`. -/
def captureImage (s : AppState) (co : CanvasOutcome) (now : Nat) : AppState :=
  match s.video with
  | none => s
  | some v =>
    if s.scanning then
      match co with
      | CanvasOutcome.noContext => { s with error := "Cannot create canvas context" }
      | CanvasOutcome.raised msg => { s with error := msg }
      | CanvasOutcome.ok => { s with capturedImage := toDataURL v, capturedAt := now }
    else s

/-- A client-side file save performed by clicking the generated `<a>`
element in `downloadImage`. -/
structure SaveAction where
  href : String
  filename : String
deriving DecidableEq

/-- Lines 133-139: `downloadImage`.  Returns no save action when
`capturedImage` is unset (empty string is falsy); otherwise saves the data
URI under `capture-<Date.now()>.png`, where `now` is the clock reading at
the moment the download is invoked. -/
def downloadImage (s : AppState) (now : Nat) : Option SaveAction :=
  if s.capturedImage = "" then none
  else some { href := s.capturedImage, filename := "capture-" ++ toString now ++ ".png" }

/-- The external video element updating its frame contents and intrinsic
dimensions between event-handler runs. -/
def updateFrame (s : AppState) (w h : Nat) (f : String) : AppState :=
  match s.video with
  | some v => { s with video := some { v with videoWidth := w, videoHeight := h, frame := f } }
  | none => s

/-- Boolean test `a == b` on characters, as a prefix test on char lists. -/
def charsHasPre : List Char → List Char → Bool
  | [], _ => true
  | _ :: _, [] => false
  | a :: as, b :: bs => a == b && charsHasPre as bs

/-- Substring test on char lists. -/
def charsHasSub (n : List Char) : List Char → Bool
  | [] => charsHasPre n []
  | b :: bs => charsHasPre n (b :: bs) || charsHasSub n bs

/-- Substring test on strings. -/
def hasSub (needle hay : String) : Bool :=
  charsHasSub needle.toList hay.toList

/-- The characters of a string folded to lower case. -/
def lowerChars (s : String) : List Char :=
  s.toList.map Char.toLower

/-- Line 44: the rear-camera heuristic `/back|rear|environment/i.test(label)`
— a case-insensitive substring match. -/
def labelMatches (label : String) : Bool :=
  charsHasSub "back".toList (lowerChars label)
    || charsHasSub "rear".toList (lowerChars label)
    || charsHasSub "environment".toList (lowerChars label)

/-- JavaScript `a || b` on possibly-undefined strings: the empty string and
`undefined` are falsy. -/
def jsOr (a b : Option String) : Option String :=
  match a with
  | some x => if x = "" then b else some x
  | none => b

/-- Line 45: the default device id chosen by `initDevices`,
`backCam?.deviceId || videoInputs[0]?.deviceId`, where `backCam` is the
first entry whose label matches the rear-camera heuristic. -/
def defaultDeviceId (ds : List CameraDevice) : Option String :=
  jsOr ((ds.find? (fun d => labelMatches d.label)).map CameraDevice.deviceId)
    ((ds.head?).map CameraDevice.deviceId)

/-- The component's state right after mount: refs populated (first effect
creates the reader; the render attaches the video element, with no stream),
all hooks at their initial values. -/
def initState : AppState :=
  { cameras := []
    selectedDeviceId := none
    scanning := false
    resultText := ""
    error := ""
    capturedImage := ""
    video := some { srcObject := none, videoWidth := 0, videoHeight := 0, frame := "" }
    reader := some { bindings := [] }
    stoppedIds := []
    capturedAt := 0 }

/-- One event-handler or effect run of the controller.  `startBtn` is the
Start button, which passes the current `selectedDeviceId` and is disabled
while `scanning` is true or the camera list is empty; `deviceChange` is
`handleDeviceChange` followed by the `selectedDeviceId` effect re-run,
modelled by `changeDevice`: the previous run's `stopScanning` cleanup runs
only if the previous id was truthy (a run that early-returned on a falsy
id registered no cleanup), and the new body starts only on a truthy new
id; `enumerateOk` is the success exit of `initDevices` (replace the camera
list, stop the temporary permission stream's tracks, then
`setSelectedDeviceId` — which triggers the same effect re-run);
`enumerateFail` is its failure exit; `teardown` is the unmount cleanup of
the mount effect (stop, reset, null the reader ref); the remaining
constructors are the other handlers and the external frame/decode ticks. -/
inductive Step : AppState → AppState → Prop where
  | startBtn (s : AppState) (o : BindOutcome)
      (hscan : s.scanning = false) (hcam : s.cameras ≠ []) :
      Step s (startScanning s s.selectedDeviceId o)
  | stopBtn (s : AppState) (rt : Bool) : Step s (stopScanning rt s)
  | deviceChange (s : AppState) (d : Option String) (o : BindOutcome) (rt : Bool) :
      Step s (changeDevice s d o rt)
  | decodeTick (s : AppState) (res : Option String) (err : CallbackErr) :
      Step s (decodeCallback s res err)
  | captureBtn (s : AppState) (co : CanvasOutcome) (now : Nat) :
      Step s (captureImage s co now)
  | clearBtn (s : AppState) : Step s { s with capturedImage := "" }
  | enumerateOk (s : AppState) (vs : List CameraDevice) (temp : List Nat)
      (o : BindOutcome) (rt : Bool) :
      Step s (changeDevice
        { s with cameras := vs, stoppedIds := s.stoppedIds ++ temp }
        (defaultDeviceId vs) o rt)
  | enumerateFail (s : AppState) (msg : String) : Step s { s with error := msg }
  | frameTick (s : AppState) (w h : Nat) (f : String) : Step s (updateFrame s w h f)
  | teardown (s : AppState) (rt : Bool) :
      Step s { stopScanning rt s with reader := none }

/-- The states of the controller reachable from the mounted state. -/
inductive Reachable : AppState → Prop where
  | init : Reachable initState
  | step {s t : AppState} : Reachable s → Step s t → Reachable t

/-- The state is idle: not scanning, no stream attached to the video
surface, no decode loop bound. -/
def isIdle (s : AppState) : Prop :=
  s.scanning = false ∧ srcObjectOf s = none ∧ readerBindings s = []

/-- The state after `initDevices` succeeds with a single camera whose
`deviceId` is the empty string (the permission stream's track 0 stopped):
the default selection becomes "", which is falsy, so the triggered effect
run early-returns and registers no cleanup. -/
def enumState : AppState :=
  changeDevice
    { initState with
        cameras := [{ deviceId := "", label := "Front" }]
        stoppedIds := initState.stoppedIds ++ [0] }
    (defaultDeviceId [{ deviceId := "", label := "Front" }])
    (BindOutcome.bound []) false

/-- The state reached from `enumState` by clicking Start (binding a loop,
with stream track 1, while the falsy id "" is selected) and then selecting
device "id2" while scanning: the previous effect run registered no
cleanup, so no stop precedes the new `startScanning`. -/
def doubleBoundState : AppState :=
  changeDevice
    (startScanning enumState enumState.selectedDeviceId (BindOutcome.bound [1]))
    (some "id2") (BindOutcome.bound [2]) false

/-- A concrete run of the controller: scanning was started on device "cam"
(track 0 attached) and a frame was captured at time 100. -/
def capturedDemoState : AppState :=
  captureImage (startScanning initState (some "cam") (BindOutcome.bound [0]))
    CanvasOutcome.ok 100

/-- Normal form of `stopScanning`: scanning off, decode loops released,
previously attached tracks stopped, stream detached — independently of
whether the swallowed `reset()` exception occurred. -/
theorem stopScanning_eq (rt : Bool) (s : AppState) :
    stopScanning rt s =
      { s with scanning := false
               reader := s.reader.map (fun _ => { bindings := [] })
               video := s.video.map (fun v => { v with srcObject := none })
               stoppedIds := s.stoppedIds ++ (srcObjectOf s).getD [] } := by
  obtain ⟨cams, sel, sc, res, er, ci, vid, rd, stp, ca⟩ := s
  obtain _ | r := rd <;> obtain _ | v := vid <;>
    (try (obtain ⟨so, w, h, f⟩ := v; obtain _ | ts := so)) <;>
    simp [stopScanning, resetReader, srcObjectOf]

theorem stop_scanning_false (rt : Bool) (s : AppState) :
    (stopScanning rt s).scanning = false := by
  simp [stopScanning_eq]

theorem stop_error_unchanged (rt : Bool) (s : AppState) :
    (stopScanning rt s).error = s.error := by
  simp [stopScanning_eq]

theorem stop_bindings_nil (rt : Bool) (s : AppState) :
    readerBindings (stopScanning rt s) = [] := by
  cases h : s.reader <;> simp [stopScanning_eq, readerBindings, h]

theorem stop_srcObject_none (rt : Bool) (s : AppState) :
    srcObjectOf (stopScanning rt s) = none := by
  cases h : s.video <;> simp [stopScanning_eq, srcObjectOf, h]

theorem stop_idem (rt1 rt2 : Bool) (s : AppState) :
    stopScanning rt2 (stopScanning rt1 s) = stopScanning rt1 s := by
  obtain ⟨cams, sel, sc, res, er, ci, vid, rd, stp, ca⟩ := s
  obtain _ | r := rd <;> obtain _ | v := vid <;>
    (try (obtain ⟨so, w, h, f⟩ := v; obtain _ | ts := so)) <;>
    simp [stopScanning, resetReader]

theorem stop_noop_of_idle (rt : Bool) (s : AppState) (h : isIdle s) :
    stopScanning rt s = s := by
  obtain ⟨h1, h2, h3⟩ := h
  obtain ⟨cams, sel, sc, res, er, ci, vid, rd, stp, ca⟩ := s
  obtain _ | ⟨⟨bs⟩⟩ := rd <;> obtain _ | v := vid <;>
    (try (obtain ⟨so, w, hh, f⟩ := v; obtain _ | ts := so)) <;>
    simp_all [stopScanning, resetReader, srcObjectOf, readerBindings, isIdle]

/-- C2: StopScanning is idempotent and safe when not scanning: a second
call (with either reset outcome) leaves the state of the first call
unchanged, a single call always ends not-scanning with no stream attached,
and on an idle state the call is a no-op. -/
theorem C2_stopScanning_idempotent (s : AppState) (rt1 rt2 : Bool) :
    stopScanning rt2 (stopScanning rt1 s) = stopScanning rt1 s
    ∧ (stopScanning rt1 s).scanning = false
    ∧ srcObjectOf (stopScanning rt1 s) = none
    ∧ (isIdle s → stopScanning rt1 s = s) :=
  ⟨stop_idem rt1 rt2 s, stop_scanning_false rt1 s, stop_srcObject_none rt1 s,
    fun h => stop_noop_of_idle rt1 s h⟩

/-- Witness for C2 at the concrete mounted state, which is idle. -/
theorem C2_stopScanning_idempotent_witness :
    stopScanning false (stopScanning false initState) = stopScanning false initState
    ∧ stopScanning false initState = initState :=
  ⟨(C2_stopScanning_idempotent initState false false).1,
    (C2_stopScanning_idempotent initState false false).2.2.2 ⟨rfl, rfl, rfl⟩⟩

/-- C3: after any call to StopScanning the video surface's stream
reference is cleared, and every track of the stream that was attached
before the call has had its `stop()` called (is in the stopped-id log). -/
theorem C3_stop_clears_stream_and_stops_tracks (s : AppState) (rt : Bool) :
    srcObjectOf (stopScanning rt s) = none
    ∧ ∀ ts, srcObjectOf s = some ts → ∀ i ∈ ts, i ∈ (stopScanning rt s).stoppedIds := by
  refine ⟨stop_srcObject_none rt s, fun ts hts i hi => ?_⟩
  simp [stopScanning_eq, hts]
  exact Or.inr hi

/-- Witness for C3: stopping from a state with tracks 5 and 6 attached. -/
theorem C3_stop_clears_stream_and_stops_tracks_witness :
    srcObjectOf (stopScanning false (startScanning initState (some "cam") (BindOutcome.bound [5, 6]))) = none
    ∧ 5 ∈ (stopScanning false (startScanning initState (some "cam") (BindOutcome.bound [5, 6]))).stoppedIds :=
  ⟨(C3_stop_clears_stream_and_stops_tracks
      (startScanning initState (some "cam") (BindOutcome.bound [5, 6])) false).1,
    (C3_stop_clears_stream_and_stops_tracks
      (startScanning initState (some "cam") (BindOutcome.bound [5, 6])) false).2
      [5, 6] rfl 5 (by decide)⟩

/-- C6: a decode callback reporting the not-found condition with no result
leaves the whole state — in particular ErrorMessage and DecodedText —
unchanged. -/
theorem C6_notFound_suppressed (s : AppState) :
    decodeCallback s none CallbackErr.notFound = s := rfl

/-- C7: a decode callback delivering a decoded payload and no error sets
DecodedText to exactly that payload and leaves ErrorMessage unchanged. -/
theorem C7_decoded_payload (s : AppState) (txt : String) :
    (decodeCallback s (some txt) CallbackErr.noErr).resultText = txt
    ∧ (decodeCallback s (some txt) CallbackErr.noErr).error = s.error :=
  ⟨rfl, rfl⟩

/-- C10: StopScanning is total and silent — it always ends with scanning
false, leaves ErrorMessage untouched, and its result does not depend on
whether the decoder's internal reset raised (the exception is swallowed and
the track/stream cleanup still runs). -/
theorem C10_stop_total_and_silent (s : AppState) (rt : Bool) :
    (stopScanning rt s).scanning = false
    ∧ (stopScanning rt s).error = s.error
    ∧ stopScanning rt s = stopScanning false s :=
  ⟨stop_scanning_false rt s, stop_error_unchanged rt s, by
    rw [stopScanning_eq rt s, stopScanning_eq false s]⟩

/-- C5: StartScanning with video surface and reader attached clears
ErrorMessage and DecodedText and sets ScanningState true; a synchronous
throw of the binding call sets ErrorMessage to the error's description and
reverts ScanningState to false. -/
theorem C5_startScanning_behavior (s : AppState) (d : Option String)
    (hv : s.video ≠ none) (hr : s.reader ≠ none) :
    (∀ ts, (startScanning s d (BindOutcome.bound ts)).error = ""
      ∧ (startScanning s d (BindOutcome.bound ts)).resultText = ""
      ∧ (startScanning s d (BindOutcome.bound ts)).scanning = true)
    ∧ ∀ msg, (startScanning s d (BindOutcome.threw msg)).error = msg
      ∧ (startScanning s d (BindOutcome.threw msg)).scanning = false := by
  cases hv2 : s.video with
  | none => exact absurd hv2 hv
  | some v =>
    cases hr2 : s.reader with
    | none => exact absurd hr2 hr
    | some r =>
      refine ⟨fun ts => ?_, fun msg => ?_⟩ <;> simp [startScanning, hv2, hr2]

/-- Witness for C5 at the mounted state. -/
theorem C5_startScanning_behavior_witness :
    (startScanning initState (some "cam") (BindOutcome.bound [7])).error = ""
    ∧ (startScanning initState (some "cam") (BindOutcome.bound [7])).resultText = ""
    ∧ (startScanning initState (some "cam") (BindOutcome.bound [7])).scanning = true
    ∧ (startScanning initState (some "cam") (BindOutcome.threw "boom")).error = "boom"
    ∧ (startScanning initState (some "cam") (BindOutcome.threw "boom")).scanning = false :=
  ⟨((C5_startScanning_behavior initState (some "cam") (by decide) (by decide)).1 [7]).1,
    ((C5_startScanning_behavior initState (some "cam") (by decide) (by decide)).1 [7]).2.1,
    ((C5_startScanning_behavior initState (some "cam") (by decide) (by decide)).1 [7]).2.2,
    ((C5_startScanning_behavior initState (some "cam") (by decide) (by decide)).2 "boom").1,
    ((C5_startScanning_behavior initState (some "cam") (by decide) (by decide)).2 "boom").2⟩

/-- C8: CaptureFrame while ScanningState is false is a complete no-op: the
state, and in particular CapturedImage and ErrorMessage, is unchanged. -/
theorem C8_capture_idle_noop (s : AppState) (co : CanvasOutcome) (now : Nat)
    (h : s.scanning = false) :
    captureImage s co now = s := by
  cases hv : s.video <;> simp [captureImage, hv, h]

/-- Witness for C8: capturing at the mounted (idle) state changes nothing. -/
theorem C8_capture_idle_noop_witness :
    captureImage initState CanvasOutcome.ok 3 = initState :=
  C8_capture_idle_noop initState CanvasOutcome.ok 3 rfl

/-- C4 fails as stated: in this device list the first entry whose label
matches the rear-camera heuristic is the second one, whose `deviceId` is
the empty string; because line 45 combines the two candidates with the
JavaScript `||` (for which the empty string is falsy), the selected default
is the first entry's id "id0", not the matching entry's id "". -/
theorem C4_counterexample :
    List.find? (fun d : CameraDevice => labelMatches d.label)
        [{ deviceId := "id0", label := "front cam" },
          { deviceId := "", label := "Back Camera" }]
      = some { deviceId := "", label := "Back Camera" }
    ∧ defaultDeviceId
        [{ deviceId := "id0", label := "front cam" },
          { deviceId := "", label := "Back Camera" }] = some "id0"
    ∧ defaultDeviceId
        [{ deviceId := "id0", label := "front cam" },
          { deviceId := "", label := "Back Camera" }] ≠ some "" := by
  decide

/-- C4 amended: if the first label-matching entry has a non-empty (truthy)
deviceId, it is selected; if its deviceId is the empty string, the default
falls back to the first entry's id; with no matching label the default is
the first entry's id; with an empty list no default is selected. -/
theorem C4_default_device_selection (ds : List CameraDevice) :
    (∀ d, ds.find? (fun x => labelMatches x.label) = some d → d.deviceId ≠ "" →
      defaultDeviceId ds = some d.deviceId)
    ∧ (∀ d, ds.find? (fun x => labelMatches x.label) = some d → d.deviceId = "" →
      defaultDeviceId ds = (ds.head?).map CameraDevice.deviceId)
    ∧ (ds.find? (fun x => labelMatches x.label) = none →
      defaultDeviceId ds = (ds.head?).map CameraDevice.deviceId)
    ∧ (ds = [] → defaultDeviceId ds = none) := by
  refine ⟨fun d hfind hne => ?_, fun d hfind heq => ?_, fun hfind => ?_, fun h => ?_⟩
  · simp [defaultDeviceId, jsOr, hfind, hne]
  · simp [defaultDeviceId, jsOr, hfind, heq]
  · simp [defaultDeviceId, jsOr, hfind]
  · subst h; simp [defaultDeviceId, jsOr]

/-- Witness for C4 (amended): a single back camera with a non-empty id is
selected. -/
theorem C4_default_device_selection_witness :
    defaultDeviceId [{ deviceId := "idB", label := "Back Camera" }] = some "idB" :=
  (C4_default_device_selection [{ deviceId := "idB", label := "Back Camera" }]).1
    { deviceId := "idB", label := "Back Camera" } (by decide) (by decide)

/-- C9 fails as stated: after a capture at time 100, downloading at time
200 saves under "capture-200.png" — the generated filename carries the
download-time clock reading and does not contain the capture timestamp. -/
theorem C9_counterexample :
    capturedDemoState.capturedAt = 100
    ∧ Option.map SaveAction.filename (downloadImage capturedDemoState 200)
        = some "capture-200.png"
    ∧ hasSub (toString capturedDemoState.capturedAt) "capture-200.png" = false := by
  decide

/-- C9 amended: with CapturedImage set, DownloadCapturedImage saves the
image data under `capture-<now>.png` where `now` is the clock reading at
the moment the download is invoked (not the capture time); with
CapturedImage unset it performs no file-save action. -/
theorem C9_download_behavior (s : AppState) (now : Nat) :
    (s.capturedImage = "" → downloadImage s now = none)
    ∧ (s.capturedImage ≠ "" → downloadImage s now =
        some { href := s.capturedImage
               filename := "capture-" ++ toString now ++ ".png" }) := by
  refine ⟨fun h => ?_, fun h => ?_⟩
  · simp [downloadImage, h]
  · simp [downloadImage, h]

/-- Witness for C9 (amended): no capture gives no save; a captured state
downloaded at time 7 saves under "capture-7.png". -/
theorem C9_download_behavior_witness :
    downloadImage initState 7 = none
    ∧ downloadImage capturedDemoState 7 =
        some { href := capturedDemoState.capturedImage, filename := "capture-7.png" } :=
  ⟨(C9_download_behavior initState 7).1 rfl,
    (C9_download_behavior capturedDemoState 7).2 (by decide)⟩

/-- C1 fails on the code: the double-bound state is reachable.  With a
single enumerated camera whose deviceId is "" the default selection is
falsy, so the selection effect early-returns without registering a
cleanup; Start (enabled: a camera is listed and scanning is off) then
binds a decode loop, and selecting device "id2" while scanning runs
`startScanning` with no preceding stop — contradicting the comment at
line 63 ("cleanup: handled by stopScanning on device change").  Two decode
loops are then bound simultaneously, scanning is on, and the first camera
stream's track 1 is never stopped (the camera-lock leak the spec calls the
primary failure mode to avoid). -/
theorem C1_double_binding :
    Reachable doubleBoundState
    ∧ readerBindings doubleBoundState = [some "", some "id2"]
    ∧ (readerBindings doubleBoundState).length = 2
    ∧ doubleBoundState.scanning = true
    ∧ 1 ∉ doubleBoundState.stoppedIds :=
  ⟨Reachable.step
      (Reachable.step
        (Reachable.step Reachable.init
          (Step.enumerateOk initState [{ deviceId := "", label := "Front" }] [0]
            (BindOutcome.bound []) false))
        (Step.startBtn enumState (BindOutcome.bound [1]) (by decide) (by decide)))
      (Step.deviceChange
        (startScanning enumState enumState.selectedDeviceId (BindOutcome.bound [1]))
        (some "id2") (BindOutcome.bound [2]) false),
    by decide, by decide, by decide, by decide⟩

end QrScan
